import Mathlib

/-!
Shallow embedding of the session lifecycle coordinator `Splutter`
(src/src/splutter.ts) of the splutter repository.

The coordinator's collaborators (Device, Audio, BufferManager, Encoder,
Uploader) live outside the provided sources; their state and the effect of
each call the coordinator issues to them are modelled from the spec
(sections 2, 4, 6 and 8).  Every call the coordinator issues to a
collaborator or to the owning context is additionally recorded in an
append-only event log, so that properties about "calls issued" can be
stated as properties of the log.
-/

/-- Device error enumeration, mirroring the `DeviceError` values that
`splutter.ts` switches over in `startCapture`: `noError`, `stopped`,
`notGranted`, and any other (unrecoverable) error carrying an opaque
diagnostic payload. -/
inductive DeviceError where
  | noError
  | stopped
  | notGranted
  | other (payload : String)
deriving DecidableEq, Repr

/-- A warning message as passed to `context.onWarning`: either a plain
string, a device error value (forwarded verbatim in `startCapture`), or a
caught exception (`recordInputChannel`'s catch branch). -/
inductive WarnMsg where
  | str (s : String)
  | deviceErr (e : DeviceError)
  | err (e : String)
deriving DecidableEq, Repr

/-- One observable call issued by the coordinator, either to a collaborator
or to the owning context.  Each constructor corresponds to one call site in
`splutter.ts`. -/
inductive Event where
  | audioResume
  | encoderCreated
  | tryReload
  | requestAccess
  | handleStream
  | warn (m : WarnMsg)
  | failure (e : String)
  | createBuffer (i : Nat)
  | encSetChannels (n : Nat)
  | upSetChannels (n : Nat)
  | audioStopAll
  | buffersStopAll
  | deviceStop
  | bufStop (i : Nat)
  | bufInit (i : Nat)
  | recordCh (i : Nat)
  | stopRecordCh (i : Nat)
  | muteCh (i o : Nat)
  | unmuteCh (i o : Nat)
  | stopEncoder
  | stopUploader
  | devicePermissionRemovedNotify
deriving DecidableEq, Repr

/-- Modelled from the spec: lifecycle state of one per-channel segment
buffer generator held by the Buffer Registry — created (registered),
initialized (running), or stopped. -/
inductive BufStatus where
  | created
  | inited
  | stopped
deriving DecidableEq, Repr

/-- Modelled from the spec: Device Gateway state visible to the
coordinator — identity strings and whether `stop()` has been issued. -/
structure DeviceState where
  id : String
  label : String
  stopped : Bool
deriving DecidableEq, Repr

/-- Modelled from the spec: Audio Engine state — whether the engine is
running, the set of channels flagged recording-active, the mute routing
table, negotiated channel counts, sample rate and processor buffer size.
Per the spec's section 8 scenario, `stopAll` stops engine activity but does
not clear per-channel recording-active flags (the active-recording count is
unchanged by it). -/
structure AudioState where
  running : Bool
  recording : List Nat
  muted : List (Nat × Nat)
  inputChannels : Nat
  outputChannels : Nat
  sampleRate : Nat
  processorBufferSize : Nat
deriving DecidableEq, Repr

/-- Modelled from the spec: Encoder Handle state — configured channel
count, the sample rate it was constructed with, and whether `stopEncoder`
has been issued (stopped, not destroyed). -/
structure EncoderState where
  channels : Nat
  sampleRate : Nat
  stopped : Bool
deriving DecidableEq, Repr

/-- Modelled from the spec: Uploader Handle state — configured channel
count, the retry interval it was constructed with, and whether
`stopUploader` has been issued. -/
structure UploaderState where
  channels : Nat
  retryMs : Nat
  stopped : Bool
deriving DecidableEq, Repr

/-- The whole coordinator state: the `Splutter` class's fields (`device`,
`audio`, `bufferManager` as an association list from channel index to
buffer status, optional `encoder`, `uploader`) plus the event log of calls
issued. -/
structure Splutter where
  device : DeviceState
  audio : AudioState
  buffers : List (Nat × BufStatus)
  encoder : Option EncoderState
  uploader : UploaderState
  log : List Event
deriving DecidableEq, Repr

/-- Association-list lookup for the Buffer Registry: the status of the
buffer registered at channel `i`, if any. -/
def findBuf : List (Nat × BufStatus) → Nat → Option BufStatus
  | [], _ => none
  | p :: t, i => if i = p.1 then some p.2 else findBuf t i

/-- `bufferManager.bufferExists(i)`: a buffer is registered at channel `i`. -/
def bufferExists (s : Splutter) (i : Nat) : Bool :=
  (findBuf s.buffers i).isSome

/-- Set the status of the buffer at channel `i` (no-op when none exists). -/
def setBufStatus (bs : List (Nat × BufStatus)) (i : Nat) (st : BufStatus) :
    List (Nat × BufStatus) :=
  bs.map (fun p => if p.1 = i then (p.1, st) else p)

/-- Modelled from the spec: the error with which `bufferManager.initBuffer`
fails when no buffer is registered at channel `i` ("fails with an error if
misconfigured", spec section 6). -/
def noBufMsg (i : Nat) : String :=
  "No buffer exists at channel " ++ toString i

/-- `this.audio.resume()` as issued by `init`. -/
def Splutter.audioResumeOp (s : Splutter) : Splutter :=
  { s with audio := { s.audio with running := true },
           log := s.log ++ [Event.audioResume] }

/-- `this.device.tryReload()` as issued by `startCapture` for the
recoverable device states. Modelled from the spec: reload success or
failure surfaces only on the next device-state check, so no device state
changes synchronously. -/
def Splutter.deviceTryReloadOp (s : Splutter) : Splutter :=
  { s with log := s.log ++ [Event.tryReload] }

/-- `await this.device.requestDeviceAccess()`; whether a stream is obtained
is part of the capture environment, so only the call is recorded here. -/
def Splutter.deviceRequestAccessOp (s : Splutter) : Splutter :=
  { s with log := s.log ++ [Event.requestAccess] }

/-- `await this.audio.handleInputStream(stream)`: the Audio Engine adopts
the stream and reports the negotiated channel count. -/
def Splutter.audioHandleStreamOp (s : Splutter) (channels : Nat) : Splutter :=
  { s with audio := { s.audio with inputChannels := channels },
           log := s.log ++ [Event.handleStream] }

/-- `this.audio.stopAll()`. Modelled from the spec: stops all Audio Engine
activity; per the section 8 scenario it does not clear the per-channel
recording-active flags. -/
def Splutter.audioStopAllOp (s : Splutter) : Splutter :=
  { s with audio := { s.audio with running := false },
           log := s.log ++ [Event.audioStopAll] }

/-- `this.bufferManager.stopAll()`: every registered buffer becomes
stopped. -/
def Splutter.buffersStopAllOp (s : Splutter) : Splutter :=
  { s with buffers := s.buffers.map (fun p => (p.1, BufStatus.stopped)),
           log := s.log ++ [Event.buffersStopAll] }

/-- `this.device.stop()`. -/
def Splutter.deviceStopOp (s : Splutter) : Splutter :=
  { s with device := { s.device with stopped := true },
           log := s.log ++ [Event.deviceStop] }

/-- `this.bufferManager.stopBuffer(i)`: the call is always issued; the
buffer at `i`, when registered, becomes stopped. -/
def Splutter.bufStopOp (s : Splutter) (i : Nat) : Splutter :=
  { s with buffers := setBufStatus s.buffers i BufStatus.stopped,
           log := s.log ++ [Event.bufStop i] }

/-- `this.bufferManager.initBuffer(i)`. Modelled from the spec: fails with
an error when no buffer is registered at channel `i`; otherwise the buffer
becomes initialized (running). -/
def Splutter.bufInitOp (s : Splutter) (i : Nat) : Except String Splutter :=
  match findBuf s.buffers i with
  | some _ =>
      Except.ok { s with buffers := setBufStatus s.buffers i BufStatus.inited,
                         log := s.log ++ [Event.bufInit i] }
  | none => Except.error (noBufMsg i)

/-- `this.audio.recordChannel(i)`: flags channel `i` recording-active. -/
def Splutter.audioRecordChOp (s : Splutter) (i : Nat) : Splutter :=
  { s with audio := { s.audio with recording :=
             if i ∈ s.audio.recording then s.audio.recording
             else i :: s.audio.recording },
           log := s.log ++ [Event.recordCh i] }

/-- `this.audio.stopRecordChannel(i)`: clears channel `i`'s
recording-active flag. -/
def Splutter.audioStopRecordChOp (s : Splutter) (i : Nat) : Splutter :=
  { s with audio := { s.audio with recording := s.audio.recording.erase i },
           log := s.log ++ [Event.stopRecordCh i] }

/-- `this.encoder?.stopEncoder()`: issued only when the encoder exists; the
handle is stopped, not destroyed. -/
def Splutter.stopEncoderOp (s : Splutter) : Splutter :=
  match s.encoder with
  | some e => { s with encoder := some { e with stopped := true },
                       log := s.log ++ [Event.stopEncoder] }
  | none => s

/-- `this.uploader.stopUploader()`. -/
def Splutter.stopUploaderOp (s : Splutter) : Splutter :=
  { s with uploader := { s.uploader with stopped := true },
           log := s.log ++ [Event.stopUploader] }

/-- One iteration of `createBuffers`' for-loop body at index `i`: when no
buffer exists at `i` and the encoder exists, construct a segment buffer
generator for channel `i` and register it. -/
def Splutter.createBuffersStep (s : Splutter) (i : Nat) : Splutter :=
  if (findBuf s.buffers i).isNone && s.encoder.isSome then
    { s with buffers := s.buffers ++ [(i, BufStatus.created)],
             log := s.log ++ [Event.createBuffer i] }
  else s

/-- The for-loop of `createBuffers`, running the body at indices
`0, 1, ..., n-1` in order. -/
def Splutter.createBuffersLoop (s : Splutter) : Nat → Splutter
  | 0 => s
  | Nat.succ n => (s.createBuffersLoop n).createBuffersStep n

/-- `Splutter.createBuffers(channels)`: the per-channel loop, then
`this.encoder?.setChannels(channels)`, then
`this.uploader.setChannels(channels)`. -/
def Splutter.createBuffers (s : Splutter) (channels : Nat) : Splutter :=
  let s1 := s.createBuffersLoop channels
  let s2 :=
    match s1.encoder with
    | some e => { s1 with encoder := some { e with channels := channels },
                          log := s1.log ++ [Event.encSetChannels channels] }
    | none => s1
  { s2 with uploader := { s2.uploader with channels := channels },
            log := s2.log ++ [Event.upSetChannels channels] }

/-- `Splutter.init()`: resume the Audio Engine; create the Encoder Handle
exactly once (bound to the uploader and the engine's sample rate). -/
def Splutter.init (s : Splutter) : Splutter :=
  let s1 := s.audioResumeOp
  if s1.encoder.isSome then s1
  else { s1 with
           encoder := some { channels := 0,
                             sampleRate := s1.audio.sampleRate,
                             stopped := false },
           log := s1.log ++ [Event.encoderCreated] }

/-- The environment of one `startCapture` call: the value the device
reports from `hasError()`, whether `requestDeviceAccess` yields a stream,
and the channel count `handleInputStream` negotiates. -/
structure CaptureEnv where
  deviceErr : DeviceError
  stream : Bool
  channels : Nat
deriving DecidableEq, Repr

/-- The tail of `startCapture` after the device-state switch: request
device access, negotiate the channel count, then `createBuffers`; returns
the new state and the returned channel count. -/
def Splutter.startCaptureResumed (s : Splutter) (env : CaptureEnv) :
    Splutter × Nat :=
  let s1 := s.deviceRequestAccessOp
  if env.stream = false then
    ({ s1 with log := s1.log ++ [Event.warn (WarnMsg.str "No stream available")] }, 0)
  else
    let s2 := s1.audioHandleStreamOp env.channels
    if env.channels = 0 then
      ({ s2 with log := s2.log ++ [Event.warn (WarnMsg.str "No channels available")] }, 0)
    else
      (s2.createBuffers env.channels, env.channels)

/-- `Splutter.startCapture()`: `init`, the switch on the device's error
state (with fall-through from `stopped` into `notGranted`, both issuing
`tryReload`; any other non-`noError` value warns and returns 0), then the
stream and channel negotiation. -/
def Splutter.startCapture (s : Splutter) (env : CaptureEnv) : Splutter × Nat :=
  let s1 := s.init
  match env.deviceErr with
  | DeviceError.stopped => s1.deviceTryReloadOp.startCaptureResumed env
  | DeviceError.notGranted => s1.deviceTryReloadOp.startCaptureResumed env
  | DeviceError.noError => s1.startCaptureResumed env
  | DeviceError.other p =>
      ({ s1 with log := s1.log ++ [Event.warn (WarnMsg.deviceErr (DeviceError.other p))] }, 0)

/-- `Splutter.stopCapture()`: `audio.stopAll()`, `bufferManager.stopAll()`,
`device.stop()`, in that order. -/
def Splutter.stopCapture (s : Splutter) : Splutter :=
  s.audioStopAllOp.buffersStopAllOp.deviceStopOp

/-- `Splutter.stopRecordInputChannel(i)`: stop the buffer, clear the
recording flag, and when the recording-channel count has reached 0, stop
the encoder (when it exists) and the uploader. -/
def Splutter.stopRecordInputChannel (s : Splutter) (i : Nat) : Splutter :=
  let s1 := s.bufStopOp i
  let s2 := s1.audioStopRecordChOp i
  if s2.audio.recording.length = 0 then s2.stopEncoderOp.stopUploaderOp
  else s2

/-- `Splutter.recordInputChannel(i)`: try `initBuffer` then
`recordChannel`; on failure, roll back via `stopRecordInputChannel(i)` and
forward the caught error as a warning.  The function is total: no error
escapes the coordinator's public boundary. -/
def Splutter.recordInputChannel (s : Splutter) (i : Nat) : Splutter :=
  match s.bufInitOp i with
  | Except.ok s1 => s1.audioRecordChOp i
  | Except.error e =>
      let s1 := s.stopRecordInputChannel i
      { s1 with log := s1.log ++ [Event.warn (WarnMsg.err e)] }

/-- `Splutter.muteOutputChannelForInputChannel(input, output)`:
pass-through to the Audio Engine's routing table. -/
def Splutter.muteOutputChannelForInputChannel (s : Splutter) (i o : Nat) :
    Splutter :=
  { s with audio := { s.audio with muted :=
             if (i, o) ∈ s.audio.muted then s.audio.muted
             else (i, o) :: s.audio.muted },
           log := s.log ++ [Event.muteCh i o] }

/-- `Splutter.unmuteOutputChannelForInputChannel(input, output)`. -/
def Splutter.unmuteOutputChannelForInputChannel (s : Splutter) (i o : Nat) :
    Splutter :=
  { s with audio := { s.audio with muted := s.audio.muted.erase (i, o) },
           log := s.log ++ [Event.unmuteCh i o] }

/-- The record returned by `Splutter.inputDeviceInformation()`. -/
structure DeviceInformation where
  id : String
  label : String
  inputChannels : Nat
  outputChannels : Nat
deriving DecidableEq, Repr

/-- `Splutter.inputDeviceInformation()`: a pure snapshot. -/
def Splutter.inputDeviceInformation (s : Splutter) : DeviceInformation :=
  { id := s.device.id, label := s.device.label,
    inputChannels := s.audio.inputChannels,
    outputChannels := s.audio.outputChannels }

/-- `Splutter.onWarning(message)`: pass-through to the owning context. -/
def Splutter.onWarningCb (s : Splutter) (m : String) : Splutter :=
  { s with log := s.log ++ [Event.warn (WarnMsg.str m)] }

/-- `Splutter.onFailure(error)`: forward the error to the owning context,
stop all audio, stop all buffers, and when the recording-channel count is
0, stop the encoder (when it exists) and the uploader.  The Device Gateway
is not stopped here. -/
def Splutter.onFailure (s : Splutter) (e : String) : Splutter :=
  let s1 := { s with log := s.log ++ [Event.failure e] }
  let s2 := s1.audioStopAllOp
  let s3 := s2.buffersStopAllOp
  if s3.audio.recording.length = 0 then s3.stopEncoderOp.stopUploaderOp
  else s3

/-- The `onPermissionsRemoved` handler installed on the Device Gateway by
the constructor: `stopCapture()`, then notify the owning context via
`onDevicePermissionRemoved`. -/
def Splutter.onPermissionsRemoved (s : Splutter) : Splutter :=
  let s1 := s.stopCapture
  { s1 with log := s1.log ++ [Event.devicePermissionRemovedNotify] }

/-- The coordinator state produced by the `Splutter` constructor: Device
Gateway and Audio Engine constructed eagerly, no buffers, no encoder (the
`encoder` field is optional and unassigned), and an Uploader Handle
constructed with retry interval 3000 (the `uploader` field is not optional
in the source and is assigned in the constructor). -/
def initialState : Splutter :=
  { device := { id := "", label := "", stopped := false },
    audio := { running := false, recording := [], muted := [],
               inputChannels := 0, outputChannels := 0,
               sampleRate := 44100, processorBufferSize := 2048 },
    buffers := [],
    encoder := none,
    uploader := { channels := 0, retryMs := 3000, stopped := false },
    log := [] }

/-- The observable collaborator state of the coordinator, with the event
log erased: what remains once the history of issued calls is forgotten. -/
def Splutter.obs (s : Splutter) :
    DeviceState × AudioState × List (Nat × BufStatus) × Option EncoderState × UploaderState :=
  (s.device, s.audio, s.buffers, s.encoder, s.uploader)

/-- The warnings contained in an event log, in order. -/
def warningsOf (l : List Event) : List WarnMsg :=
  l.filterMap (fun e => match e with | Event.warn m => some m | _ => none)

/-- The Encoder Handle exists (the optional `encoder` field is assigned). -/
def encoderExists (s : Splutter) : Bool :=
  s.encoder.isSome

/-- The Uploader Handle exists.  In the source the `uploader` field is not
optional and is assigned in the constructor (splutter.ts lines 45 and 70),
so an uploader handle exists in every coordinator state. -/
def uploaderExists (_ : Splutter) : Bool :=
  true

/-- The configured channel count of the Encoder Handle, when it exists. -/
def encoderChannels (s : Splutter) : Option Nat :=
  s.encoder.map (fun e => e.channels)

/-- The stopped flag of the Encoder Handle, when it exists. -/
def encoderStopped (s : Splutter) : Option Bool :=
  s.encoder.map (fun e => e.stopped)

/-- `init` has been called at least once since construction: `init` is the
only operation that issues `audio.resume()`, so this is recorded in the
log. -/
def initCalled (s : Splutter) : Prop :=
  Event.audioResume ∈ s.log

instance (s : Splutter) : Decidable (initCalled s) := by
  unfold initCalled; infer_instance

/-- The coordinator states reachable from construction through the public
surface (and the constructor-installed device permission handler). -/
inductive Reachable : Splutter → Prop where
  | constructed : Reachable initialState
  | rInit {s} : Reachable s → Reachable s.init
  | rStartCapture {s} (env : CaptureEnv) :
      Reachable s → Reachable (s.startCapture env).1
  | rStopCapture {s} : Reachable s → Reachable s.stopCapture
  | rMute {s} (i o : Nat) :
      Reachable s → Reachable (s.muteOutputChannelForInputChannel i o)
  | rUnmute {s} (i o : Nat) :
      Reachable s → Reachable (s.unmuteOutputChannelForInputChannel i o)
  | rRecord {s} (i : Nat) :
      Reachable s → Reachable (s.recordInputChannel i)
  | rStopRecord {s} (i : Nat) :
      Reachable s → Reachable (s.stopRecordInputChannel i)
  | rOnWarning {s} (m : String) :
      Reachable s → Reachable (s.onWarningCb m)
  | rOnFailure {s} (e : String) :
      Reachable s → Reachable (s.onFailure e)
  | rPermissionsRemoved {s} :
      Reachable s → Reachable s.onPermissionsRemoved

/-- A concrete reachable state in which channel 0 is the only
recording-active channel: fresh coordinator, one successful one-channel
capture, then `recordInputChannel 0`. -/
def oneRecordingState : Splutter :=
  Splutter.recordInputChannel
    (Splutter.startCapture initialState
      { deviceErr := DeviceError.noError, stream := true, channels := 1 }).1 0

/-! ## Helper lemmas about the Buffer Registry association list -/

theorem findBuf_append (l1 l2 : List (Nat × BufStatus)) (i : Nat) :
    findBuf (l1 ++ l2) i = ((findBuf l1 i).orElse (fun _ => findBuf l2 i)) := by
  induction l1 with
  | nil => simp [findBuf]
  | cons p t ih =>
      by_cases h : i = p.1 <;> simp [findBuf, h, ih]

theorem findBuf_setBufStatus (bs : List (Nat × BufStatus)) (i j : Nat) (st : BufStatus) :
    findBuf (setBufStatus bs i st) j
      = if j = i then (findBuf bs i).map (fun _ => st) else findBuf bs j := by
  induction bs with
  | nil => simp [findBuf, setBufStatus]
  | cons p t ih =>
      have hf : findBuf (setBufStatus (p :: t) i st) j
          = if j = p.1 then some (if p.1 = i then st else p.2)
            else findBuf (setBufStatus t i st) j := by
        by_cases hpi : p.1 = i <;> simp [setBufStatus, findBuf, hpi]
      rw [hf, ih]
      by_cases hjp : j = p.1
      · subst hjp
        by_cases hpi : p.1 = i
        · rw [← hpi]; simp [findBuf]
        · simp [findBuf, hpi]
      · by_cases hji : j = i
        · subst hji; simp [findBuf, hjp]
        · simp [findBuf, hjp, hji]

theorem setBufStatus_of_none (bs : List (Nat × BufStatus)) (i : Nat) (st : BufStatus)
    (h : findBuf bs i = none) : setBufStatus bs i st = bs := by
  induction bs with
  | nil => rfl
  | cons p t ih =>
      simp only [findBuf] at h
      by_cases hip : i = p.1
      · simp [hip] at h
      · have hpi : ¬ p.1 = i := fun hh => hip hh.symm
        simp [hip] at h
        simp [setBufStatus, hpi] at *
        exact ih h

theorem setBufStatus_idem (bs : List (Nat × BufStatus)) (i : Nat) (st : BufStatus) :
    setBufStatus (setBufStatus bs i st) i st = setBufStatus bs i st := by
  induction bs with
  | nil => rfl
  | cons p t ih =>
      by_cases hpi : p.1 = i <;>
        simp [setBufStatus, hpi] at * <;>
        simpa [setBufStatus] using ih

theorem stopAllMap_idem (bs : List (Nat × BufStatus)) :
    (bs.map (fun p => (p.1, BufStatus.stopped))).map (fun p => (p.1, BufStatus.stopped))
      = bs.map (fun p => (p.1, BufStatus.stopped)) := by
  simp [List.map_map]

theorem findBuf_stopAllMap (bs : List (Nat × BufStatus)) (j : Nat) :
    findBuf (bs.map (fun p => (p.1, BufStatus.stopped))) j
      = (findBuf bs j).map (fun _ => BufStatus.stopped) := by
  induction bs with
  | nil => rfl
  | cons p t ih =>
      by_cases h : j = p.1 <;> simp [findBuf, h, ih]

theorem warningsOf_append (l1 l2 : List Event) :
    warningsOf (l1 ++ l2) = warningsOf l1 ++ warningsOf l2 := by
  simp [warningsOf, List.filterMap_append]

/-! ## Claim theorems -/

/-- Claim C2: on the transition of the active-recording count from 1 to 0
(a `stopRecordInputChannel` on the last recording channel), the coordinator
issues exactly one `stopEncoder` and exactly one `stopUploader` call, the
handles are stopped but not destroyed, and when other channels are still
recording after the call, no stop call is issued to either handle. -/
theorem c2_last_channel_stop (s : Splutter) (i : Nat)
    (henc : s.encoder.isSome = true) :
    (s.audio.recording = [i] →
       (s.stopRecordInputChannel i).log
         = s.log ++ [Event.bufStop i, Event.stopRecordCh i,
                     Event.stopEncoder, Event.stopUploader]
       ∧ encoderExists (s.stopRecordInputChannel i) = true
       ∧ encoderStopped (s.stopRecordInputChannel i) = some true
       ∧ (s.stopRecordInputChannel i).uploader.stopped = true)
    ∧ (s.audio.recording.erase i ≠ [] →
       (s.stopRecordInputChannel i).log
         = s.log ++ [Event.bufStop i, Event.stopRecordCh i]
       ∧ (s.stopRecordInputChannel i).encoder = s.encoder
       ∧ (s.stopRecordInputChannel i).uploader = s.uploader) := by
  rcases Option.isSome_iff_exists.mp henc with ⟨e, he⟩
  constructor
  · intro h1
    simp [Splutter.stopRecordInputChannel, Splutter.bufStopOp,
          Splutter.audioStopRecordChOp, Splutter.stopEncoderOp,
          Splutter.stopUploaderOp, encoderExists, encoderStopped, h1, he,
          List.erase_cons_head]
  · intro h2
    have hlen : ¬ (s.audio.recording.erase i).length = 0 := by
      simpa [List.length_eq_zero] using h2
    simp [Splutter.stopRecordInputChannel, Splutter.bufStopOp,
          Splutter.audioStopRecordChOp, Splutter.stopEncoderOp,
          Splutter.stopUploaderOp, hlen]

/-- Claim C2 witness: in the concrete reachable state where channel 0 is
the only recording channel, stopping it issues exactly one `stopEncoder`
and one `stopUploader`. -/
theorem c2_witness :
    let s := Splutter.recordInputChannel
      (Splutter.startCapture initialState
        { deviceErr := DeviceError.noError, stream := true, channels := 1 }).1 0
    (s.stopRecordInputChannel 0).log
      = s.log ++ [Event.bufStop 0, Event.stopRecordCh 0,
                  Event.stopEncoder, Event.stopUploader]
    ∧ encoderExists (s.stopRecordInputChannel 0) = true
    ∧ encoderStopped (s.stopRecordInputChannel 0) = some true
    ∧ (s.stopRecordInputChannel 0).uploader.stopped = true :=
  (c2_last_channel_stop _ 0 (by decide)).1 (by decide)

/-- Claim C6: `stopCapture` unconditionally stops all Audio Engine
activity, stops every registered buffer, and stops the Device Gateway; it
never issues `stopEncoder` or `stopUploader` (the handles are untouched);
and a second consecutive call leaves the observable collaborator state
unchanged. -/
theorem c6_stopCapture (s : Splutter) :
    s.stopCapture.log
      = s.log ++ [Event.audioStopAll, Event.buffersStopAll, Event.deviceStop]
    ∧ s.stopCapture.encoder = s.encoder
    ∧ s.stopCapture.uploader = s.uploader
    ∧ s.stopCapture.audio.running = false
    ∧ (∀ j, findBuf s.stopCapture.buffers j
          = (findBuf s.buffers j).map (fun _ => BufStatus.stopped))
    ∧ s.stopCapture.device.stopped = true
    ∧ s.stopCapture.stopCapture.obs = s.stopCapture.obs := by
  refine ⟨?_, rfl, rfl, rfl, ?_, rfl, ?_⟩
  · simp [Splutter.stopCapture, Splutter.audioStopAllOp,
          Splutter.buffersStopAllOp, Splutter.deviceStopOp]
  · intro j
    simpa [Splutter.stopCapture, Splutter.audioStopAllOp,
           Splutter.buffersStopAllOp, Splutter.deviceStopOp]
      using findBuf_stopAllMap s.buffers j
  · simp [Splutter.stopCapture, Splutter.audioStopAllOp,
          Splutter.buffersStopAllOp, Splutter.deviceStopOp, Splutter.obs,
          stopAllMap_idem]

/-- Claim C9: when device permissions are removed, the constructor's
handler performs the full `stopCapture` teardown (audio stop, buffer stop,
device stop, in that order) strictly before notifying the owning context,
and the Encoder and Uploader Handles are untouched. -/
theorem c9_permissions_removed (s : Splutter) :
    s.onPermissionsRemoved.log
      = s.log ++ [Event.audioStopAll, Event.buffersStopAll, Event.deviceStop,
                  Event.devicePermissionRemovedNotify]
    ∧ s.onPermissionsRemoved.encoder = s.encoder
    ∧ s.onPermissionsRemoved.uploader = s.uploader
    ∧ s.onPermissionsRemoved.device.stopped = true := by
  refine ⟨?_, rfl, rfl, rfl⟩
  simp [Splutter.onPermissionsRemoved, Splutter.stopCapture,
        Splutter.audioStopAllOp, Splutter.buffersStopAllOp,
        Splutter.deviceStopOp]

/-- Claim C8: `onFailure` first forwards the error to the owning context,
then stops all audio and all buffers, then stops the Encoder and Uploader
Handles exactly when the active-recording count is 0; the Device Gateway is
not stopped in this path. -/
theorem c8_onFailure (s : Splutter) (e : String)
    (henc : s.encoder.isSome = true) :
    (s.audio.recording.length = 0 →
        (s.onFailure e).log
          = s.log ++ [Event.failure e, Event.audioStopAll, Event.buffersStopAll,
                      Event.stopEncoder, Event.stopUploader])
    ∧ (s.audio.recording.length ≠ 0 →
        (s.onFailure e).log
          = s.log ++ [Event.failure e, Event.audioStopAll, Event.buffersStopAll]
        ∧ (s.onFailure e).encoder = s.encoder
        ∧ (s.onFailure e).uploader = s.uploader)
    ∧ (s.onFailure e).device = s.device := by
  rcases Option.isSome_iff_exists.mp henc with ⟨en, he⟩
  refine ⟨?_, ?_, ?_⟩
  · intro h0
    simp [Splutter.onFailure, Splutter.audioStopAllOp, Splutter.buffersStopAllOp,
          Splutter.stopEncoderOp, Splutter.stopUploaderOp, h0, he]
  · intro h1
    simp [Splutter.onFailure, Splutter.audioStopAllOp, Splutter.buffersStopAllOp,
          Splutter.stopEncoderOp, Splutter.stopUploaderOp, h1]
  · by_cases h0 : s.audio.recording.length = 0 <;>
      simp [Splutter.onFailure, Splutter.audioStopAllOp, Splutter.buffersStopAllOp,
            Splutter.stopEncoderOp, Splutter.stopUploaderOp, h0, he]

/-- Claim C8 witness: in the initialized coordinator with no recording
channel, `onFailure` forwards the failure, stops audio and buffers, then
stops both handles, and leaves the device unstopped. -/
theorem c8_witness :
    ((Splutter.init initialState).onFailure "fatal").log
      = (Splutter.init initialState).log
        ++ [Event.failure "fatal", Event.audioStopAll, Event.buffersStopAll,
            Event.stopEncoder, Event.stopUploader]
    ∧ ((Splutter.init initialState).onFailure "fatal").device
        = (Splutter.init initialState).device :=
  ⟨(c8_onFailure (Splutter.init initialState) "fatal" (by decide)).1 (by decide),
   (c8_onFailure (Splutter.init initialState) "fatal" (by decide)).2.2⟩

/-- Claim C10: when `recordInputChannel(i)` fails (no buffer registered at
`i`) and the recording-channel count at rollback time is 0, the rollback
issues `stopEncoder` and `stopUploader` — a single never-started channel's
failure stops the shared handles. -/
theorem c10_record_failure_stops_shared (s : Splutter) (i : Nat)
    (hbuf : findBuf s.buffers i = none) (hrec : s.audio.recording = [])
    (henc : s.encoder.isSome = true) :
    (s.recordInputChannel i).log
      = s.log ++ [Event.bufStop i, Event.stopRecordCh i, Event.stopEncoder,
                  Event.stopUploader, Event.warn (WarnMsg.err (noBufMsg i))]
    ∧ encoderStopped (s.recordInputChannel i) = some true
    ∧ (s.recordInputChannel i).uploader.stopped = true := by
  rcases Option.isSome_iff_exists.mp henc with ⟨e, he⟩
  simp [Splutter.recordInputChannel, Splutter.bufInitOp, hbuf,
        Splutter.stopRecordInputChannel, Splutter.bufStopOp,
        Splutter.audioStopRecordChOp, Splutter.stopEncoderOp,
        Splutter.stopUploaderOp, encoderStopped, hrec, he]

/-- Claim C10 witness: in the initialized coordinator (encoder exists, no
buffers, nothing recording), a failing `recordInputChannel 0` stops both
shared handles during its rollback. -/
theorem c10_witness :
    ((Splutter.init initialState).recordInputChannel 0).log
      = (Splutter.init initialState).log
        ++ [Event.bufStop 0, Event.stopRecordCh 0, Event.stopEncoder,
            Event.stopUploader, Event.warn (WarnMsg.err (noBufMsg 0))]
    ∧ encoderStopped ((Splutter.init initialState).recordInputChannel 0) = some true
    ∧ ((Splutter.init initialState).recordInputChannel 0).uploader.stopped = true :=
  c10_record_failure_stops_shared (Splutter.init initialState) 0
    (by decide) (by decide) (by decide)

theorem init_buffers (s : Splutter) : s.init.buffers = s.buffers := by
  by_cases h : s.encoder.isSome = true <;>
    simp [Splutter.init, Splutter.audioResumeOp, h]

theorem init_encoder_isSome (s : Splutter) : s.init.encoder.isSome = true := by
  by_cases h : s.encoder.isSome = true <;>
    simp [Splutter.init, Splutter.audioResumeOp, h]

theorem init_warningsOf (s : Splutter) :
    warningsOf s.init.log = warningsOf s.log := by
  by_cases h : s.encoder.isSome = true <;>
    simp [Splutter.init, Splutter.audioResumeOp, h, warningsOf]

/-- Claim C5: `startCapture` returns 0, emits exactly the one matching
warning, and leaves the Buffer Registry untouched, in each abort case:
(a) the device reports an unrecoverable error, (b) no stream is obtained,
(c) zero channels are negotiated. -/
theorem c5_failure_paths (s : Splutter) (env : CaptureEnv) :
    (∀ p, env.deviceErr = DeviceError.other p →
        (s.startCapture env).2 = 0
        ∧ (s.startCapture env).1.buffers = s.buffers
        ∧ warningsOf (s.startCapture env).1.log
            = warningsOf s.log ++ [WarnMsg.deviceErr (DeviceError.other p)])
    ∧ ((env.deviceErr = DeviceError.noError ∨ env.deviceErr = DeviceError.stopped
          ∨ env.deviceErr = DeviceError.notGranted) → env.stream = false →
        (s.startCapture env).2 = 0
        ∧ (s.startCapture env).1.buffers = s.buffers
        ∧ warningsOf (s.startCapture env).1.log
            = warningsOf s.log ++ [WarnMsg.str "No stream available"])
    ∧ ((env.deviceErr = DeviceError.noError ∨ env.deviceErr = DeviceError.stopped
          ∨ env.deviceErr = DeviceError.notGranted) → env.stream = true →
        env.channels = 0 →
        (s.startCapture env).2 = 0
        ∧ (s.startCapture env).1.buffers = s.buffers
        ∧ warningsOf (s.startCapture env).1.log
            = warningsOf s.log ++ [WarnMsg.str "No channels available"]) := by
  refine ⟨?_, ?_, ?_⟩
  · intro p hp
    by_cases henc : s.encoder.isSome = true <;>
      simp [Splutter.startCapture, hp, Splutter.init, Splutter.audioResumeOp,
            henc, warningsOf]
  · rintro (h | h | h) hstream <;>
      by_cases henc : s.encoder.isSome = true <;>
      simp [Splutter.startCapture, Splutter.startCaptureResumed, h, hstream,
            Splutter.deviceTryReloadOp, Splutter.deviceRequestAccessOp,
            Splutter.init, Splutter.audioResumeOp, henc, warningsOf]
  · rintro (h | h | h) hstream hch <;>
      by_cases henc : s.encoder.isSome = true <;>
      simp [Splutter.startCapture, Splutter.startCaptureResumed, h, hstream, hch,
            Splutter.deviceTryReloadOp, Splutter.deviceRequestAccessOp,
            Splutter.audioHandleStreamOp, Splutter.init, Splutter.audioResumeOp,
            henc, warningsOf]

/-- Claim C5 witness: from the freshly constructed coordinator, an
unrecoverable device error makes `startCapture` return 0, leave the Buffer
Registry untouched, and emit exactly that error as the one warning. -/
theorem c5_witness :
    (initialState.startCapture
        { deviceErr := DeviceError.other "device broke", stream := true,
          channels := 1 }).2 = 0
    ∧ (initialState.startCapture
        { deviceErr := DeviceError.other "device broke", stream := true,
          channels := 1 }).1.buffers = initialState.buffers
    ∧ warningsOf (initialState.startCapture
        { deviceErr := DeviceError.other "device broke", stream := true,
          channels := 1 }).1.log
        = warningsOf initialState.log
          ++ [WarnMsg.deviceErr (DeviceError.other "device broke")] :=
  (c5_failure_paths initialState
    { deviceErr := DeviceError.other "device broke", stream := true,
      channels := 1 }).1 "device broke" rfl

/-- Claim C7: when `recordInputChannel(i)` fails (its buffer-init step
fails because no buffer is registered at `i`), afterwards channel `i` is
not recording-active, no buffer is running at `i`, the Buffer Registry is
unchanged, exactly one warning carrying the caught error was emitted, and
no other channel's recording state changed.  `recordInputChannel` is a
total function, so no error crosses the coordinator's public boundary. -/
theorem c7_rollback (s : Splutter) (i : Nat)
    (hbuf : findBuf s.buffers i = none) (hnd : s.audio.recording.Nodup) :
    i ∉ (s.recordInputChannel i).audio.recording
    ∧ findBuf (s.recordInputChannel i).buffers i = none
    ∧ (s.recordInputChannel i).buffers = s.buffers
    ∧ warningsOf (s.recordInputChannel i).log
        = warningsOf s.log ++ [WarnMsg.err (noBufMsg i)]
    ∧ (∀ j, j ≠ i →
        ((j ∈ (s.recordInputChannel i).audio.recording) ↔ j ∈ s.audio.recording)) := by
  have hset : setBufStatus s.buffers i BufStatus.stopped = s.buffers :=
    setBufStatus_of_none s.buffers i BufStatus.stopped hbuf
  have hout : i ∉ s.audio.recording.erase i := hnd.not_mem_erase
  refine ⟨?_, ?_, ?_, ?_, ?_⟩
  · rcases hsE : s.encoder with _ | e <;>
      by_cases hc : (s.audio.recording.erase i).length = 0 <;>
      simp [Splutter.recordInputChannel, Splutter.bufInitOp, hbuf,
            Splutter.stopRecordInputChannel, Splutter.bufStopOp,
            Splutter.audioStopRecordChOp, Splutter.stopEncoderOp,
            Splutter.stopUploaderOp, hsE, hc, hout]
  · rcases hsE : s.encoder with _ | e <;>
      by_cases hc : (s.audio.recording.erase i).length = 0 <;>
      simp [Splutter.recordInputChannel, Splutter.bufInitOp, hbuf,
            Splutter.stopRecordInputChannel, Splutter.bufStopOp,
            Splutter.audioStopRecordChOp, Splutter.stopEncoderOp,
            Splutter.stopUploaderOp, hsE, hc, hset, hbuf]
  · rcases hsE : s.encoder with _ | e <;>
      by_cases hc : (s.audio.recording.erase i).length = 0 <;>
      simp [Splutter.recordInputChannel, Splutter.bufInitOp, hbuf,
            Splutter.stopRecordInputChannel, Splutter.bufStopOp,
            Splutter.audioStopRecordChOp, Splutter.stopEncoderOp,
            Splutter.stopUploaderOp, hsE, hc, hset]
  · rcases hsE : s.encoder with _ | e <;>
      by_cases hc : (s.audio.recording.erase i).length = 0 <;>
      simp [Splutter.recordInputChannel, Splutter.bufInitOp, hbuf,
            Splutter.stopRecordInputChannel, Splutter.bufStopOp,
            Splutter.audioStopRecordChOp, Splutter.stopEncoderOp,
            Splutter.stopUploaderOp, hsE, hc, warningsOf_append, warningsOf]
  · intro j hj
    rcases hsE : s.encoder with _ | e <;>
      by_cases hc : (s.audio.recording.erase i).length = 0 <;>
      simp [Splutter.recordInputChannel, Splutter.bufInitOp, hbuf,
            Splutter.stopRecordInputChannel, Splutter.bufStopOp,
            Splutter.audioStopRecordChOp, Splutter.stopEncoderOp,
            Splutter.stopUploaderOp, hsE, hc] <;>
      exact List.mem_erase_of_ne hj

/-- Claim C7 witness: on the initialized fresh coordinator (no buffers), a
failing `recordInputChannel 0` leaves channel 0 not recording, keeps the
Buffer Registry unchanged, and emits exactly one warning with the caught
error. -/
theorem c7_witness :
    0 ∉ ((Splutter.init initialState).recordInputChannel 0).audio.recording
    ∧ ((Splutter.init initialState).recordInputChannel 0).buffers
        = (Splutter.init initialState).buffers
    ∧ warningsOf ((Splutter.init initialState).recordInputChannel 0).log
        = warningsOf (Splutter.init initialState).log
          ++ [WarnMsg.err (noBufMsg 0)] :=
  ⟨(c7_rollback (Splutter.init initialState) 0 (by decide) (by decide)).1,
   (c7_rollback (Splutter.init initialState) 0 (by decide) (by decide)).2.2.1,
   (c7_rollback (Splutter.init initialState) 0 (by decide) (by decide)).2.2.2.1⟩

theorem createBuffersStep_encoder (s : Splutter) (i : Nat) :
    (s.createBuffersStep i).encoder = s.encoder := by
  unfold Splutter.createBuffersStep
  split <;> rfl

theorem createBuffersStep_uploader (s : Splutter) (i : Nat) :
    (s.createBuffersStep i).uploader = s.uploader := by
  unfold Splutter.createBuffersStep
  split <;> rfl

theorem createBuffersStep_bufferExists (s : Splutter) (i j : Nat) :
    bufferExists (s.createBuffersStep j) i
      = (bufferExists s i || (decide (i = j) && s.encoder.isSome)) := by
  unfold Splutter.createBuffersStep
  by_cases hg : ((findBuf s.buffers j).isNone && s.encoder.isSome) = true
  · rw [if_pos hg]
    have hand := hg
    simp only [Bool.and_eq_true] at hand
    obtain ⟨hnone, hsome⟩ := hand
    have hjn : findBuf s.buffers j = none := Option.isNone_iff_eq_none.mp hnone
    by_cases hij : i = j
    · subst hij
      simp [bufferExists, findBuf_append, hjn, findBuf, hsome, Option.orElse]
    · simp only [bufferExists, findBuf_append, findBuf, hsome]
      cases hfb : findBuf s.buffers i <;> simp [Option.orElse, hij]
  · rw [if_neg hg]
    by_cases he : s.encoder.isSome = true
    · have hjs : (findBuf s.buffers j).isNone = false := by
        cases hb : (findBuf s.buffers j).isNone
        · rfl
        · exact absurd (by simp [hb, he]) hg
      by_cases hij : i = j
      · subst hij
        have hex : bufferExists s i = true := by
          unfold bufferExists
          cases hx : findBuf s.buffers i
          · rw [hx] at hjs; simp at hjs
          · rfl
        simp [hex]
      · simp [hij]
    · have he2 : s.encoder.isSome = false := by
        cases hx : s.encoder.isSome
        · rfl
        · exact absurd hx he
      simp [he2]

theorem createBuffersLoop_encoder (s : Splutter) (n : Nat) :
    (s.createBuffersLoop n).encoder = s.encoder := by
  induction n with
  | zero => rfl
  | succ n ih =>
      show ((s.createBuffersLoop n).createBuffersStep n).encoder = s.encoder
      rw [createBuffersStep_encoder, ih]

theorem createBuffersLoop_uploader (s : Splutter) (n : Nat) :
    (s.createBuffersLoop n).uploader = s.uploader := by
  induction n with
  | zero => rfl
  | succ n ih =>
      show ((s.createBuffersLoop n).createBuffersStep n).uploader = s.uploader
      rw [createBuffersStep_uploader, ih]

theorem createBuffersLoop_bufferExists (s : Splutter) (n i : Nat) :
    bufferExists (s.createBuffersLoop n) i
      = (bufferExists s i || (decide (i < n) && s.encoder.isSome)) := by
  induction n with
  | zero => simp [Splutter.createBuffersLoop]
  | succ n ih =>
      show bufferExists ((s.createBuffersLoop n).createBuffersStep n) i = _
      rw [createBuffersStep_bufferExists, ih, createBuffersLoop_encoder]
      by_cases h1 : i < n <;> by_cases h3 : i = n
      · exact absurd h3 (by omega)
      · have h2 : i < n + 1 := by omega
        simp [h1, h3, h2, Bool.or_assoc]
      · have h2 : i < n + 1 := by omega
        simp [h1, h3, h2, Bool.or_assoc]
      · have h2 : ¬ i < n + 1 := by omega
        simp [h1, h3, h2]

theorem createBuffers_spec (s : Splutter) (C : Nat)
    (henc : s.encoder.isSome = true) :
    (∀ j, bufferExists (s.createBuffers C) j
        = (bufferExists s j || decide (j < C)))
    ∧ encoderChannels (s.createBuffers C) = some C
    ∧ (s.createBuffers C).uploader.channels = C
    ∧ Event.encSetChannels C ∈ (s.createBuffers C).log
    ∧ Event.upSetChannels C ∈ (s.createBuffers C).log := by
  rcases Option.isSome_iff_exists.mp henc with ⟨e, he⟩
  have he2 : (s.createBuffersLoop C).encoder = some e := by
    rw [createBuffersLoop_encoder, he]
  refine ⟨?_, ?_, ?_, ?_, ?_⟩
  · intro j
    have hl := createBuffersLoop_bufferExists s C j
    rw [henc] at hl
    have hbufs : bufferExists (s.createBuffers C) j
        = bufferExists (s.createBuffersLoop C) j := by
      simp [Splutter.createBuffers, he2, bufferExists]
    rw [hbufs, hl]
    simp
  · simp [Splutter.createBuffers, he2, encoderChannels]
  · simp [Splutter.createBuffers, he2]
  · simp [Splutter.createBuffers, he2]
  · simp [Splutter.createBuffers, he2]

/-- Claim C1 (amended): after a successful `startCapture` returning C ≥ 1,
buffers exist for all channels 0..C-1 together with every previously
existing buffer (so exactly 0..C-1 when no buffer beyond C-1 existed
before, e.g. on the first capture), and `setChannels(C)` has been issued to
both the Encoder Handle and the Uploader Handle. -/
theorem c1_buffers_setChannels (s : Splutter) (env : CaptureEnv) (C : Nat)
    (hC : 1 ≤ C) (hch : env.channels = C) (hstream : env.stream = true)
    (hdev : env.deviceErr = DeviceError.noError
            ∨ env.deviceErr = DeviceError.stopped
            ∨ env.deviceErr = DeviceError.notGranted) :
    (s.startCapture env).2 = C
    ∧ (∀ j, bufferExists (s.startCapture env).1 j
        = (bufferExists s j || decide (j < C)))
    ∧ encoderChannels (s.startCapture env).1 = some C
    ∧ (s.startCapture env).1.uploader.channels = C
    ∧ Event.encSetChannels C ∈ (s.startCapture env).1.log
    ∧ Event.upSetChannels C ∈ (s.startCapture env).1.log := by
  subst hch
  have hch0 : ¬ env.channels = 0 := by omega
  rcases hdev with h | h | h
  · have hres : s.startCapture env
        = ((s.init.deviceRequestAccessOp.audioHandleStreamOp
              env.channels).createBuffers env.channels, env.channels) := by
      simp [Splutter.startCapture, Splutter.startCaptureResumed, h, hstream, hch0]
    have henc0 : (s.init.deviceRequestAccessOp.audioHandleStreamOp
        env.channels).encoder.isSome = true := by
      simp [Splutter.deviceRequestAccessOp, Splutter.audioHandleStreamOp,
            init_encoder_isSome]
    have hbuf0 : (s.init.deviceRequestAccessOp.audioHandleStreamOp
        env.channels).buffers = s.buffers := by
      simp [Splutter.deviceRequestAccessOp, Splutter.audioHandleStreamOp,
            init_buffers]
    obtain ⟨h1, h2, h3, h4, h5⟩ := createBuffers_spec _ env.channels henc0
    rw [hres]
    refine ⟨rfl, ?_, h2, h3, h4, h5⟩
    intro j
    rw [h1 j]
    unfold bufferExists
    rw [hbuf0]
  · have hres : s.startCapture env
        = ((s.init.deviceTryReloadOp.deviceRequestAccessOp.audioHandleStreamOp
              env.channels).createBuffers env.channels, env.channels) := by
      simp [Splutter.startCapture, Splutter.startCaptureResumed, h, hstream, hch0]
    have henc0 : (s.init.deviceTryReloadOp.deviceRequestAccessOp.audioHandleStreamOp
        env.channels).encoder.isSome = true := by
      simp [Splutter.deviceTryReloadOp, Splutter.deviceRequestAccessOp,
            Splutter.audioHandleStreamOp, init_encoder_isSome]
    have hbuf0 : (s.init.deviceTryReloadOp.deviceRequestAccessOp.audioHandleStreamOp
        env.channels).buffers = s.buffers := by
      simp [Splutter.deviceTryReloadOp, Splutter.deviceRequestAccessOp,
            Splutter.audioHandleStreamOp, init_buffers]
    obtain ⟨h1, h2, h3, h4, h5⟩ := createBuffers_spec _ env.channels henc0
    rw [hres]
    refine ⟨rfl, ?_, h2, h3, h4, h5⟩
    intro j
    rw [h1 j]
    unfold bufferExists
    rw [hbuf0]
  · have hres : s.startCapture env
        = ((s.init.deviceTryReloadOp.deviceRequestAccessOp.audioHandleStreamOp
              env.channels).createBuffers env.channels, env.channels) := by
      simp [Splutter.startCapture, Splutter.startCaptureResumed, h, hstream, hch0]
    have henc0 : (s.init.deviceTryReloadOp.deviceRequestAccessOp.audioHandleStreamOp
        env.channels).encoder.isSome = true := by
      simp [Splutter.deviceTryReloadOp, Splutter.deviceRequestAccessOp,
            Splutter.audioHandleStreamOp, init_encoder_isSome]
    have hbuf0 : (s.init.deviceTryReloadOp.deviceRequestAccessOp.audioHandleStreamOp
        env.channels).buffers = s.buffers := by
      simp [Splutter.deviceTryReloadOp, Splutter.deviceRequestAccessOp,
            Splutter.audioHandleStreamOp, init_buffers]
    obtain ⟨h1, h2, h3, h4, h5⟩ := createBuffers_spec _ env.channels henc0
    rw [hres]
    refine ⟨rfl, ?_, h2, h3, h4, h5⟩
    intro j
    rw [h1 j]
    unfold bufferExists
    rw [hbuf0]

/-- Claim C1 counterexample: buffers do not exist for *exactly* 0..C-1
after every successful `startCapture` returning C.  A first capture
negotiating 2 channels followed by a second capture negotiating 1 channel
returns C = 1 successfully, yet a buffer still exists at channel index 1
(buffers are never destroyed individually). -/
theorem c1_counterexample :
    ((Splutter.startCapture
        (Splutter.startCapture initialState
          { deviceErr := DeviceError.noError, stream := true, channels := 2 }).1
        { deviceErr := DeviceError.noError, stream := true, channels := 1 }).2 = 1)
    ∧ bufferExists
        (Splutter.startCapture
          (Splutter.startCapture initialState
            { deviceErr := DeviceError.noError, stream := true, channels := 2 }).1
          { deviceErr := DeviceError.noError, stream := true, channels := 1 }).1 1
        = true := by
  decide

/-- Claim C1 witness: from the fresh coordinator a successful capture with
2 channels returns 2 and configures both handles with channel count 2. -/
theorem c1_witness :
    (Splutter.startCapture initialState
      { deviceErr := DeviceError.noError, stream := true, channels := 2 }).2 = 2
    ∧ encoderChannels (Splutter.startCapture initialState
        { deviceErr := DeviceError.noError, stream := true, channels := 2 }).1
        = some 2
    ∧ (Splutter.startCapture initialState
        { deviceErr := DeviceError.noError, stream := true,
          channels := 2 }).1.uploader.channels = 2 :=
  ⟨(c1_buffers_setChannels initialState
      { deviceErr := DeviceError.noError, stream := true, channels := 2 } 2
      (by decide) rfl rfl (Or.inl rfl)).1,
   (c1_buffers_setChannels initialState
      { deviceErr := DeviceError.noError, stream := true, channels := 2 } 2
      (by decide) rfl rfl (Or.inl rfl)).2.2.1,
   (c1_buffers_setChannels initialState
      { deviceErr := DeviceError.noError, stream := true, channels := 2 } 2
      (by decide) rfl rfl (Or.inl rfl)).2.2.2.1⟩

/-- Claim C3 counterexample: calling `stopRecordInputChannel 0` twice in a
row does not issue the same collaborator calls as calling it once.  In the
state where channel 0 is the only recording channel, the second call
repeats `stopBuffer`/`stopRecordChannel` and, because the recording count
is still 0, issues a second `stopEncoder` and a second `stopUploader`. -/
theorem c3_counterexample :
    ((oneRecordingState.stopRecordInputChannel 0).stopRecordInputChannel 0).log.count
        Event.stopEncoder = 2
    ∧ ((oneRecordingState.stopRecordInputChannel 0).stopRecordInputChannel 0).log.count
        Event.stopUploader = 2
    ∧ (oneRecordingState.stopRecordInputChannel 0).log.count Event.stopEncoder = 1
    ∧ (oneRecordingState.stopRecordInputChannel 0).log.count Event.stopUploader = 1
    ∧ ((oneRecordingState.stopRecordInputChannel 0).stopRecordInputChannel 0).log
        ≠ (oneRecordingState.stopRecordInputChannel 0).log := by
  decide

/-- Claim C3 (amended): calling `stopRecordInputChannel i` twice in a row
leaves the same observable collaborator state (device, audio, buffers,
encoder, uploader) as calling it once; the second call does, however,
re-issue `stopBuffer`/`stopRecordChannel` and — when the recording count is
0 — duplicate `stopEncoder`/`stopUploader` calls, so the sequences of calls
issued differ. -/
theorem c3_state_idempotent (s : Splutter) (i : Nat)
    (hnd : s.audio.recording.Nodup) :
    ((s.stopRecordInputChannel i).stopRecordInputChannel i).obs
      = (s.stopRecordInputChannel i).obs := by
  have hE : (s.audio.recording.erase i).erase i = s.audio.recording.erase i :=
    List.erase_of_not_mem hnd.not_mem_erase
  rcases hsE : s.encoder with _ | e <;>
    by_cases hc : (s.audio.recording.erase i).length = 0 <;>
    simp [Splutter.stopRecordInputChannel, Splutter.bufStopOp,
          Splutter.audioStopRecordChOp, Splutter.stopEncoderOp,
          Splutter.stopUploaderOp, Splutter.obs, hsE, hc, hE,
          setBufStatus_idem]

/-- Claim C3 witness: state-level idempotence holds at the concrete state
with channel 0 recording. -/
theorem c3_witness :
    ((oneRecordingState.stopRecordInputChannel 0).stopRecordInputChannel 0).obs
      = (oneRecordingState.stopRecordInputChannel 0).obs :=
  c3_state_idempotent oneRecordingState 0 (by decide)

theorem init_resume_mem (s : Splutter) : Event.audioResume ∈ s.init.log := by
  by_cases h : s.encoder.isSome = true <;>
    simp [Splutter.init, Splutter.audioResumeOp, h]

theorem createBuffersStep_log_mono (s : Splutter) (i : Nat) :
    ∃ t, (s.createBuffersStep i).log = s.log ++ t := by
  unfold Splutter.createBuffersStep
  split
  · exact ⟨[Event.createBuffer i], rfl⟩
  · exact ⟨[], by simp⟩

theorem createBuffersLoop_log_mono (s : Splutter) (n : Nat) :
    ∃ t, (s.createBuffersLoop n).log = s.log ++ t := by
  induction n with
  | zero => exact ⟨[], by simp [Splutter.createBuffersLoop]⟩
  | succ n ih =>
      obtain ⟨t, ht⟩ := ih
      obtain ⟨u, hu⟩ := createBuffersStep_log_mono (s.createBuffersLoop n) n
      refine ⟨t ++ u, ?_⟩
      show ((s.createBuffersLoop n).createBuffersStep n).log = s.log ++ (t ++ u)
      rw [hu, ht, List.append_assoc]

theorem createBuffers_log_mem (s : Splutter) (C : Nat) (a : Event)
    (h : a ∈ s.log) : a ∈ (s.createBuffers C).log := by
  obtain ⟨t, ht⟩ := createBuffersLoop_log_mono s C
  rcases hsE : (s.createBuffersLoop C).encoder with _ | e <;>
    simp [Splutter.createBuffers, hsE, ht, h]

theorem createBuffers_encoder_isSome (s : Splutter) (C : Nat)
    (h : s.encoder.isSome = true) :
    (s.createBuffers C).encoder.isSome = true := by
  rcases Option.isSome_iff_exists.mp h with ⟨e, he⟩
  have he2 : (s.createBuffersLoop C).encoder = some e := by
    rw [createBuffersLoop_encoder, he]
  simp [Splutter.createBuffers, he2]

theorem startCaptureResumed_encoder_isSome (s : Splutter) (env : CaptureEnv)
    (h : s.encoder.isSome = true) :
    ((s.startCaptureResumed env).1).encoder.isSome = true := by
  by_cases hst : env.stream = false
  · simpa [Splutter.startCaptureResumed, Splutter.deviceRequestAccessOp, hst]
      using h
  · by_cases hch : env.channels = 0
    · simpa [Splutter.startCaptureResumed, Splutter.deviceRequestAccessOp,
             Splutter.audioHandleStreamOp, hst, hch] using h
    · have hpre : ((s.deviceRequestAccessOp.audioHandleStreamOp
          env.channels)).encoder.isSome = true := by
        simpa [Splutter.deviceRequestAccessOp, Splutter.audioHandleStreamOp]
          using h
      simpa [Splutter.startCaptureResumed, hst, hch] using
        createBuffers_encoder_isSome _ env.channels hpre

theorem startCaptureResumed_resume_mem (s : Splutter) (env : CaptureEnv)
    (h : Event.audioResume ∈ s.log) :
    Event.audioResume ∈ ((s.startCaptureResumed env).1).log := by
  by_cases hst : env.stream = false
  · simp [Splutter.startCaptureResumed, Splutter.deviceRequestAccessOp, hst, h]
  · by_cases hch : env.channels = 0
    · simp [Splutter.startCaptureResumed, Splutter.deviceRequestAccessOp,
            Splutter.audioHandleStreamOp, hst, hch, h]
    · have hpre : Event.audioResume ∈ ((s.deviceRequestAccessOp.audioHandleStreamOp
          env.channels)).log := by
        simp [Splutter.deviceRequestAccessOp, Splutter.audioHandleStreamOp, h]
      simpa [Splutter.startCaptureResumed, hst, hch] using
        createBuffers_log_mem _ env.channels _ hpre

theorem startCapture_encoder_isSome (s : Splutter) (env : CaptureEnv) :
    ((s.startCapture env).1).encoder.isSome = true := by
  rcases henv : env.deviceErr with _ | _ | _ | p
  · simpa [Splutter.startCapture, henv] using
      startCaptureResumed_encoder_isSome s.init env (init_encoder_isSome s)
  · simpa [Splutter.startCapture, henv] using
      startCaptureResumed_encoder_isSome s.init.deviceTryReloadOp env
        (by simpa [Splutter.deviceTryReloadOp] using init_encoder_isSome s)
  · simpa [Splutter.startCapture, henv] using
      startCaptureResumed_encoder_isSome s.init.deviceTryReloadOp env
        (by simpa [Splutter.deviceTryReloadOp] using init_encoder_isSome s)
  · simpa [Splutter.startCapture, henv] using init_encoder_isSome s

theorem startCapture_resume_mem (s : Splutter) (env : CaptureEnv) :
    Event.audioResume ∈ ((s.startCapture env).1).log := by
  rcases henv : env.deviceErr with _ | _ | _ | p
  · simpa [Splutter.startCapture, henv] using
      startCaptureResumed_resume_mem s.init env (init_resume_mem s)
  · simpa [Splutter.startCapture, henv] using
      startCaptureResumed_resume_mem s.init.deviceTryReloadOp env
        (by simp [Splutter.deviceTryReloadOp, init_resume_mem s])
  · simpa [Splutter.startCapture, henv] using
      startCaptureResumed_resume_mem s.init.deviceTryReloadOp env
        (by simp [Splutter.deviceTryReloadOp, init_resume_mem s])
  · simp [Splutter.startCapture, henv, init_resume_mem s]

theorem stopCapture_inv (s : Splutter) :
    s.stopCapture.encoder.isSome = s.encoder.isSome
    ∧ (Event.audioResume ∈ s.stopCapture.log ↔ Event.audioResume ∈ s.log) := by
  simp [Splutter.stopCapture, Splutter.audioStopAllOp, Splutter.buffersStopAllOp,
        Splutter.deviceStopOp]

theorem mute_inv (s : Splutter) (i o : Nat) :
    (s.muteOutputChannelForInputChannel i o).encoder.isSome = s.encoder.isSome
    ∧ (Event.audioResume ∈ (s.muteOutputChannelForInputChannel i o).log
        ↔ Event.audioResume ∈ s.log) := by
  simp [Splutter.muteOutputChannelForInputChannel]

theorem unmute_inv (s : Splutter) (i o : Nat) :
    (s.unmuteOutputChannelForInputChannel i o).encoder.isSome = s.encoder.isSome
    ∧ (Event.audioResume ∈ (s.unmuteOutputChannelForInputChannel i o).log
        ↔ Event.audioResume ∈ s.log) := by
  simp [Splutter.unmuteOutputChannelForInputChannel]

theorem onWarningCb_inv (s : Splutter) (m : String) :
    (s.onWarningCb m).encoder.isSome = s.encoder.isSome
    ∧ (Event.audioResume ∈ (s.onWarningCb m).log ↔ Event.audioResume ∈ s.log) := by
  simp [Splutter.onWarningCb]

theorem stopRecord_inv (s : Splutter) (i : Nat) :
    (s.stopRecordInputChannel i).encoder.isSome = s.encoder.isSome
    ∧ (Event.audioResume ∈ (s.stopRecordInputChannel i).log
        ↔ Event.audioResume ∈ s.log) := by
  rcases hsE : s.encoder with _ | e <;>
    by_cases hc : (s.audio.recording.erase i).length = 0 <;>
    simp [Splutter.stopRecordInputChannel, Splutter.bufStopOp,
          Splutter.audioStopRecordChOp, Splutter.stopEncoderOp,
          Splutter.stopUploaderOp, hsE, hc]

theorem record_inv (s : Splutter) (i : Nat) :
    (s.recordInputChannel i).encoder.isSome = s.encoder.isSome
    ∧ (Event.audioResume ∈ (s.recordInputChannel i).log
        ↔ Event.audioResume ∈ s.log) := by
  rcases hfb : findBuf s.buffers i with _ | st
  · rcases hsE : s.encoder with _ | e <;>
      by_cases hc : (s.audio.recording.erase i).length = 0 <;>
      simp [Splutter.recordInputChannel, Splutter.bufInitOp, hfb,
            Splutter.stopRecordInputChannel, Splutter.bufStopOp,
            Splutter.audioStopRecordChOp, Splutter.stopEncoderOp,
            Splutter.stopUploaderOp, hsE, hc]
  · simp [Splutter.recordInputChannel, Splutter.bufInitOp, hfb,
          Splutter.audioRecordChOp]

theorem onFailure_inv (s : Splutter) (e : String) :
    (s.onFailure e).encoder.isSome = s.encoder.isSome
    ∧ (Event.audioResume ∈ (s.onFailure e).log ↔ Event.audioResume ∈ s.log) := by
  rcases hsE : s.encoder with _ | en <;>
    by_cases hc : s.audio.recording.length = 0 <;>
    simp [Splutter.onFailure, Splutter.audioStopAllOp, Splutter.buffersStopAllOp,
          Splutter.stopEncoderOp, Splutter.stopUploaderOp, hsE, hc]

theorem onPermissionsRemoved_inv (s : Splutter) :
    s.onPermissionsRemoved.encoder.isSome = s.encoder.isSome
    ∧ (Event.audioResume ∈ s.onPermissionsRemoved.log
        ↔ Event.audioResume ∈ s.log) := by
  simp [Splutter.onPermissionsRemoved, Splutter.stopCapture,
        Splutter.audioStopAllOp, Splutter.buffersStopAllOp,
        Splutter.deviceStopOp]

/-- Claim C4 (amended): in every reachable coordinator state the Encoder
Handle exists if and only if `init` has been called at least once; the
Uploader Handle, by contrast, exists from construction onward (the
`uploader` field is not optional and is assigned in the constructor), so it
exists even before the first `init` call. -/
theorem c4_encoder_iff_init (s : Splutter) (hs : Reachable s) :
    (encoderExists s = true ↔ initCalled s) ∧ uploaderExists s = true := by
  refine ⟨?_, rfl⟩
  unfold encoderExists initCalled
  induction hs with
  | constructed => simp [initialState]
  | rInit hr ih =>
      exact ⟨fun _ => init_resume_mem _, fun _ => init_encoder_isSome _⟩
  | rStartCapture env hr ih =>
      exact ⟨fun _ => startCapture_resume_mem _ env,
             fun _ => startCapture_encoder_isSome _ env⟩
  | rStopCapture hr ih =>
      rw [(stopCapture_inv _).1, (stopCapture_inv _).2]; exact ih
  | rMute i o hr ih =>
      rw [(mute_inv _ i o).1, (mute_inv _ i o).2]; exact ih
  | rUnmute i o hr ih =>
      rw [(unmute_inv _ i o).1, (unmute_inv _ i o).2]; exact ih
  | rRecord i hr ih =>
      rw [(record_inv _ i).1, (record_inv _ i).2]; exact ih
  | rStopRecord i hr ih =>
      rw [(stopRecord_inv _ i).1, (stopRecord_inv _ i).2]; exact ih
  | rOnWarning m hr ih =>
      rw [(onWarningCb_inv _ m).1, (onWarningCb_inv _ m).2]; exact ih
  | rOnFailure e hr ih =>
      rw [(onFailure_inv _ e).1, (onFailure_inv _ e).2]; exact ih
  | rPermissionsRemoved hr ih =>
      rw [(onPermissionsRemoved_inv _).1, (onPermissionsRemoved_inv _).2]; exact ih

/-- Claim C4 counterexample: at construction (before any `init` call) the
Encoder Handle does not exist, but the Uploader Handle does — it is built
in the constructor with retry interval 3000 — so "before the first init
call neither handle exists" is false on the code. -/
theorem c4_counterexample :
    uploaderExists initialState = true
    ∧ ¬ initCalled initialState
    ∧ encoderExists initialState = false
    ∧ initialState.uploader.retryMs = 3000 := by
  decide

/-- Claim C4 witness: the invariant applied to the constructed state. -/
theorem c4_witness :
    (encoderExists initialState = true ↔ initCalled initialState)
    ∧ uploaderExists initialState = true :=
  c4_encoder_iff_init initialState Reachable.constructed
